import Mathlib

/-!
Shallow embedding of the piano-roll grid editor
(`src/lib/components/pianoroll/GridComponent.svelte` and
`TimeLineComponent.svelte`).

Pixel coordinates, time positions, durations and scroll offsets are JS
numbers used only through `+ - * /`, `Math.round`, `Math.floor`,
`Math.max/min` and `Math.abs`; they are modelled as rationals (ℚ), with
Mathlib's `round` (= ⌊x + 1/2⌋) matching `Math.round`'s half-up rounding
and `Int.floor` matching `Math.floor`.  Pitches and velocities are
integers.  Note ids are strings; the selection (`selectedNotes`, a JS
`Set<string>`) is a `Finset String`.
-/

/-- Height of a note row in pixels (`NOTE_HEIGHT = 20`). -/
def NOTE_HEIGHT : ℚ := 20

/-- Total number of MIDI notes (`TOTAL_NOTES = 128`). -/
def TOTAL_NOTES : ℤ := 128

/-- Pixels per beat (`PIXELS_PER_BEAT = 80`). -/
def PIXELS_PER_BEAT : ℚ := 80

/-- Number of measures shown (`totalMeasures = 32`). -/
def totalMeasures : ℚ := 32

/-- `totalGridHeight = TOTAL_NOTES * NOTE_HEIGHT`. -/
def totalGridHeight : ℚ := (TOTAL_NOTES : ℚ) * NOTE_HEIGHT

/-- `pixelsPerMeasure = beatsPerMeasure * PIXELS_PER_BEAT` where
`beatsPerMeasure = timeSignature.numerator`. -/
def pixelsPerMeasure (numerator : ℚ) : ℚ := numerator * PIXELS_PER_BEAT

/-- `totalGridWidth = totalMeasures * pixelsPerMeasure`. -/
def totalGridWidth (numerator : ℚ) : ℚ := totalMeasures * pixelsPerMeasure numerator

/-- A note record, as in the `notes` prop of `GridComponent`. -/
structure Note where
  id : String
  start : ℚ
  duration : ℚ
  pitch : ℤ
  velocity : ℤ
  lyric : Option String
deriving DecidableEq, Repr

/-- The edit mode prop (`editMode`): `'draw' | 'erase' | 'select'`. -/
inductive EditMode where
  | draw
  | erase
  | select
deriving DecidableEq, Repr

/-- The mutable component state of `GridComponent` that the pointer
handlers read and write. -/
structure GridState where
  notes : List Note
  isDragging : Bool
  isResizing : Bool
  isCreatingNote : Bool
  selectedNotes : Finset String
  dragStartX : ℚ
  dragStartY : ℚ
  lastMouseX : ℚ
  lastMouseY : ℚ
  draggedNoteId : Option String
  resizedNoteId : Option String
  creationStartTime : ℚ
  creationPitch : ℤ
  isEditingLyric : Bool
  editedNoteId : Option String
  lyricInputValue : String

/-- The initial component state: empty collection, all session flags off. -/
def idleState : GridState :=
  { notes := []
    isDragging := false
    isResizing := false
    isCreatingNote := false
    selectedNotes := ∅
    dragStartX := 0
    dragStartY := 0
    lastMouseX := 0
    lastMouseY := 0
    draggedNoteId := none
    resizedNoteId := none
    creationStartTime := 0
    creationPitch := 0
    isEditingLyric := false
    editedNoteId := none
    lyricInputValue := "" }

/-- The screen y coordinate of the top of a pitch row:
`(TOTAL_NOTES - 1 - note.pitch) * NOTE_HEIGHT`. -/
def pixelY (pitch : ℤ) : ℚ := ((TOTAL_NOTES - 1 - pitch : ℤ) : ℚ) * NOTE_HEIGHT

/-- The hit test used by `findNoteAtPosition`:
`x >= note.start && x <= note.start + note.duration && y >= noteY && y <= noteY + NOTE_HEIGHT`
(both edges inclusive). -/
def inNoteRect (note : Note) (x y : ℚ) : Bool :=
  decide (note.start ≤ x ∧ x ≤ note.start + note.duration ∧
          pixelY note.pitch ≤ y ∧ y ≤ pixelY note.pitch + NOTE_HEIGHT)

/-- `findNoteAtPosition(x, y)`: `notes.find(...)` over the hit test,
i.e. the first (earliest-inserted) note whose rectangle contains the
point. -/
def findNoteAtPosition (notes : List Note) (x y : ℚ) : Option Note :=
  notes.find? (fun note => inNoteRect note x y)

/-- Modelled from the spec: the spec's half-open note rectangle
`[start, start+duration) × [pixelY(pitch), pixelY(pitch)+rowHeight)`,
used only to compare the spec's `findAt` contract with the code's
`findNoteAtPosition`. -/
def specNoteRect (note : Note) (x y : ℚ) : Prop :=
  note.start ≤ x ∧ x < note.start + note.duration ∧
  pixelY note.pitch ≤ y ∧ y < pixelY note.pitch + NOTE_HEIGHT

instance (note : Note) (x y : ℚ) : Decidable (specNoteRect note x y) := by
  unfold specNoteRect; infer_instance

/-- `snapToGrid(value) = Math.round(value / gridSize) * gridSize` with
`gridSize = PIXELS_PER_BEAT / 4`. -/
def snapToGrid (value : ℚ) : ℚ :=
  (round (value / (PIXELS_PER_BEAT / 4)) : ℚ) * (PIXELS_PER_BEAT / 4)

/-- `getSubdivisionsFromTimeSignature` of `GridComponent` (count of
subdivisions per beat, pixels per subdivision). -/
def getSubdivisionsFromTimeSignature (denominator : ℤ) : ℤ × ℚ :=
  if denominator = 2 then (2, PIXELS_PER_BEAT / 2)
  else if denominator = 4 then (4, PIXELS_PER_BEAT / 4)
  else if denominator = 8 then (3, PIXELS_PER_BEAT / 3)
  else if denominator = 16 then (4, PIXELS_PER_BEAT / 4)
  else (4, PIXELS_PER_BEAT / 4)

namespace TimeLineComponent

/-- `getSubdivisionsFromTimeSignature` of `TimeLineComponent`. -/
def getSubdivisionsFromTimeSignature (denominator : ℤ) : ℤ × ℚ :=
  if denominator = 2 then (2, PIXELS_PER_BEAT / 2)
  else if denominator = 4 then (4, PIXELS_PER_BEAT / 4)
  else if denominator = 8 then (2, PIXELS_PER_BEAT / 2)
  else if denominator = 16 then (2, PIXELS_PER_BEAT / 2)
  else (4, PIXELS_PER_BEAT / 4)

end TimeLineComponent

/-- The quantized horizontal delta used when dragging and resizing:
`Math.round(deltaX / (PIXELS_PER_BEAT / 4)) * (PIXELS_PER_BEAT / 4)`. -/
def snappedDelta (deltaX : ℚ) : ℚ :=
  (round (deltaX / (PIXELS_PER_BEAT / 4)) : ℚ) * (PIXELS_PER_BEAT / 4)

/-- The per-note update of the drag branch of `handleMouseMove`. -/
def moveNote (selected : Finset String) (deltaX deltaY : ℚ) (note : Note) : Note :=
  if note.id ∈ selected then
    { note with
      start := max 0 (note.start + snappedDelta deltaX)
      pitch := max 0 (min 127 (note.pitch - round (deltaY / NOTE_HEIGHT))) }
  else note

/-- The per-note update of the resize branch of `handleMouseMove`
(`x` is the current pointer x, `deltaX` the delta from the last pointer
position). -/
def resizeNote (s : GridState) (x deltaX : ℚ) (note : Note) : Note :=
  if s.resizedNoteId = some note.id then
    let newDuration :=
      if s.isCreatingNote then
        let w := max (PIXELS_PER_BEAT / 8) (x - s.creationStartTime)
        max (PIXELS_PER_BEAT / 8)
          ((round (w / (PIXELS_PER_BEAT / 4)) : ℚ) * (PIXELS_PER_BEAT / 4))
      else
        max (PIXELS_PER_BEAT / 8) (note.duration + snappedDelta deltaX)
    { note with duration := newDuration }
  else note

/-- `handleMouseMove` (coordinates already include the scroll offsets,
as in the source: `x = clientX - rect.left + horizontalScroll`). -/
def handleMouseMove (mode : EditMode) (x y : ℚ) (s : GridState) : GridState :=
  let deltaX := x - s.lastMouseX
  let deltaY := y - s.lastMouseY
  let s1 := { s with lastMouseX := x, lastMouseY := y }
  if s1.isDragging ∧ s1.draggedNoteId.isSome ∧ mode = EditMode.select then
    { s1 with notes := s1.notes.map (moveNote s1.selectedNotes deltaX deltaY) }
  else if s1.isResizing ∧ s1.resizedNoteId.isSome then
    { s1 with notes := s1.notes.map (resizeNote s1 x deltaX) }
  else s1

/-- `handleMouseDown`.  `newId` stands for the freshly generated
`note-${Date.now()}-${random}` id. -/
def handleMouseDown (mode : EditMode) (newId : String) (shiftKey : Bool)
    (x y : ℚ) (s : GridState) : GridState :=
  let s1 := { s with dragStartX := x, dragStartY := y, lastMouseX := x, lastMouseY := y }
  match mode, findNoteAtPosition s1.notes x y with
  | EditMode.draw, none =>
      let time := snapToGrid x
      let cPitch : ℤ := TOTAL_NOTES - 1 - ⌊y / NOTE_HEIGHT⌋
      let newNote : Note :=
        { id := newId
          start := time
          duration := PIXELS_PER_BEAT / 8
          pitch := cPitch
          velocity := 100
          lyric := some "라" }
      { s1 with
        notes := s1.notes ++ [newNote]
        creationStartTime := time
        creationPitch := cPitch
        selectedNotes := {newId}
        resizedNoteId := some newId
        isCreatingNote := true
        isResizing := true }
  | EditMode.erase, some clickedNote =>
      { s1 with
        notes := s1.notes.filter (fun note => decide (note.id ≠ clickedNote.id))
        selectedNotes := s1.selectedNotes.erase clickedNote.id }
  | EditMode.select, some clickedNote =>
      if |x - (clickedNote.start + clickedNote.duration)| < 10 then
        { s1 with isResizing := true, resizedNoteId := some clickedNote.id }
      else
        let sel :=
          if !shiftKey then
            (if clickedNote.id ∈ s1.selectedNotes then s1.selectedNotes
             else {clickedNote.id})
          else insert clickedNote.id s1.selectedNotes
        { s1 with
          selectedNotes := sel
          isDragging := true
          draggedNoteId := some clickedNote.id }
  | EditMode.select, none =>
      if !shiftKey then { s1 with selectedNotes := ∅ } else s1
  | _, _ => s1

/-- `handleMouseUp`: discards a just-created note whose duration is
below `PIXELS_PER_BEAT / 4`, then clears all session flags. -/
def handleMouseUp (s : GridState) : GridState :=
  let s1 :=
    if s.isCreatingNote then
      match s.resizedNoteId with
      | some rid =>
          match s.notes.find? (fun note => decide (note.id = rid)) with
          | some createdNote =>
              if createdNote.duration < PIXELS_PER_BEAT / 4 then
                { s with notes := s.notes.filter (fun note => decide (note.id ≠ rid)) }
              else s
          | none => s
      | none => s
    else s
  { s1 with
    isCreatingNote := false
    isDragging := false
    isResizing := false
    draggedNoteId := none
    resizedNoteId := none }

/-- `saveLyric`: commits `lyricInputValue` into the edited note's
`lyric` field and leaves lyric editing. -/
def saveLyric (s : GridState) : GridState :=
  match s.editedNoteId with
  | none => s
  | some editedId =>
      { s with
        notes := s.notes.map (fun note =>
          if note.id = editedId then { note with lyric := some s.lyricInputValue }
          else note)
        isEditingLyric := false
        editedNoteId := none }

/-- `handleLyricInputKeydown`. -/
def handleLyricInputKeydown (key : String) (s : GridState) : GridState :=
  if key = "Enter" then saveLyric s
  else if key = "Escape" then
    { s with isEditingLyric := false, editedNoteId := none }
  else s

/-- `handleScroll` on a wheel event, returning the new
`(horizontalScroll, verticalScroll)` pair.  `width`/`height` are the
component props; `deltaX || deltaY` reflects the JS `||` with `0`
falsy. -/
def handleScroll (numerator w h deltaX deltaY : ℚ) (shiftKey : Bool)
    (hs vs : ℚ) : ℚ × ℚ :=
  let vs1 := if deltaY ≠ 0 then max 0 (min (totalGridHeight - h) (vs + deltaY)) else vs
  let hs1 :=
    if deltaX ≠ 0 ∨ shiftKey = true then
      let dX := if deltaX ≠ 0 then deltaX else deltaY
      max 0 (min (totalGridWidth numerator - w) (hs + dX))
    else hs
  (hs1, vs1)

/-- The full note-creation gesture: draw-mode pointer-down at
`(x0, y0)`, a sequence of pointer moves, then pointer-up. -/
def creationGesture (s : GridState) (newId : String) (x0 y0 : ℚ)
    (moves : List (ℚ × ℚ)) : GridState :=
  handleMouseUp
    (moves.foldl (fun st p => handleMouseMove EditMode.draw p.1 p.2 st)
      (handleMouseDown EditMode.draw newId false x0 y0 s))

/-! ## Helper lemmas -/

lemma moveNote_id (selected : Finset String) (deltaX deltaY : ℚ) (note : Note) :
    (moveNote selected deltaX deltaY note).id = note.id := by
  unfold moveNote; split <;> rfl

lemma resizeNote_id (s : GridState) (x deltaX : ℚ) (note : Note) :
    (resizeNote s x deltaX note).id = note.id := by
  unfold resizeNote; split <;> rfl

lemma resizeNote_of_ne (s : GridState) (x deltaX : ℚ) (note : Note)
    (rid : String) (hrid : s.resizedNoteId = some rid) (h : note.id ≠ rid) :
    resizeNote s x deltaX note = note := by
  unfold resizeNote
  rw [if_neg]
  rw [hrid]
  intro hc
  exact h (Option.some.injEq _ _ ▸ hc).symm

lemma find?_id_append (base : List Note) (nn : Note) (rid : String)
    (hid : nn.id = rid) (hfresh : ∀ n ∈ base, n.id ≠ rid) :
    (base ++ [nn]).find? (fun note => decide (note.id = rid)) = some nn := by
  rw [List.find?_append]
  have h1 : base.find? (fun note => decide (note.id = rid)) = none := by
    rw [List.find?_eq_none]
    intro n hn
    simpa using hfresh n hn
  rw [h1]
  simp [List.find?, hid]

lemma filter_id_append (base : List Note) (nn : Note) (rid : String)
    (hid : nn.id = rid) (hfresh : ∀ n ∈ base, n.id ≠ rid) :
    (base ++ [nn]).filter (fun note => decide (note.id ≠ rid)) = base := by
  rw [List.filter_append]
  have h1 : base.filter (fun note => decide (note.id ≠ rid)) = base := by
    rw [List.filter_eq_self]
    intro n hn
    simpa using hfresh n hn
  have h2 : [nn].filter (fun note => decide (note.id ≠ rid)) = [] := by
    simp [List.filter, hid]
  rw [h1, h2, List.append_nil]

/-! ## C7 — snapToGrid idempotence -/

/-- C7: `snapToGrid` is idempotent: `snapToGrid (snapToGrid x) = snapToGrid x`
for every rational `x`, with grid unit `PIXELS_PER_BEAT / 4`. -/
theorem C7_snapToGrid_idempotent (x : ℚ) :
    snapToGrid (snapToGrid x) = snapToGrid x := by
  unfold snapToGrid
  rw [mul_div_assoc, div_self (by norm_num [PIXELS_PER_BEAT]), mul_one, round_intCast]

/-! ## C8 — subdivision fallback tables -/

/-- C8: the time-signature-derived subdivision fallback tables of both
components: denominator 2 ↦ 2 subdivisions per beat, 4 ↦ 4,
8 ↦ 3 (grid) or 2 (timeline), 16 ↦ 4 (grid) or 2 (timeline), any other
denominator ↦ 4; and in every case the subdivision spacing equals
`PIXELS_PER_BEAT` divided by the count. -/
theorem C8_subdivision_tables (d : ℤ) :
    (getSubdivisionsFromTimeSignature d).2
        = PIXELS_PER_BEAT / (((getSubdivisionsFromTimeSignature d).1 : ℤ) : ℚ)
  ∧ (TimeLineComponent.getSubdivisionsFromTimeSignature d).2
        = PIXELS_PER_BEAT / (((TimeLineComponent.getSubdivisionsFromTimeSignature d).1 : ℤ) : ℚ)
  ∧ (getSubdivisionsFromTimeSignature 2).1 = 2
  ∧ (getSubdivisionsFromTimeSignature 4).1 = 4
  ∧ (getSubdivisionsFromTimeSignature 8).1 = 3
  ∧ (getSubdivisionsFromTimeSignature 16).1 = 4
  ∧ (TimeLineComponent.getSubdivisionsFromTimeSignature 2).1 = 2
  ∧ (TimeLineComponent.getSubdivisionsFromTimeSignature 4).1 = 4
  ∧ (TimeLineComponent.getSubdivisionsFromTimeSignature 8).1 = 2
  ∧ (TimeLineComponent.getSubdivisionsFromTimeSignature 16).1 = 2
  ∧ (d ≠ 2 → d ≠ 4 → d ≠ 8 → d ≠ 16 →
      (getSubdivisionsFromTimeSignature d).1 = 4
      ∧ (TimeLineComponent.getSubdivisionsFromTimeSignature d).1 = 4) := by
  unfold getSubdivisionsFromTimeSignature TimeLineComponent.getSubdivisionsFromTimeSignature
  refine ⟨?_, ?_, by norm_num, by norm_num, by norm_num, by norm_num,
    by norm_num, by norm_num, by norm_num, by norm_num, ?_⟩
  · split_ifs <;> norm_num [PIXELS_PER_BEAT]
  · split_ifs <;> norm_num [PIXELS_PER_BEAT]
  · intro h2 h4 h8 h16
    rw [if_neg h2, if_neg h4, if_neg h8, if_neg h16,
        if_neg h2, if_neg h4, if_neg h8, if_neg h16]
    exact ⟨rfl, rfl⟩

/-- Witness for C8 at the out-of-table denominator 5. -/
theorem C8_subdivision_tables_witness :
    (getSubdivisionsFromTimeSignature 5).1 = 4
    ∧ (TimeLineComponent.getSubdivisionsFromTimeSignature 5).1 = 4 :=
  (C8_subdivision_tables 5).2.2.2.2.2.2.2.2.2.2
    (by norm_num) (by norm_num) (by norm_num) (by norm_num)

/-! ## C10 — pointer-move mutations preserve the id sequence -/

/-- C10: every pointer-move (drag-move, ordinary resize and live-create
resize alike) preserves the length of the note collection and the
sequence of note ids in order: `handleMouseMove` only maps over the
existing notes. -/
theorem C10_mouseMove_preserves_ids (mode : EditMode) (x y : ℚ) (s : GridState) :
    (handleMouseMove mode x y s).notes.map Note.id = s.notes.map Note.id
    ∧ (handleMouseMove mode x y s).notes.length = s.notes.length := by
  unfold handleMouseMove
  dsimp only
  split_ifs with h1 h2
  · constructor
    · dsimp only
      rw [List.map_map]
      exact List.map_congr_left (fun n _ => moveNote_id _ _ _ n)
    · dsimp only
      rw [List.length_map]
  · constructor
    · dsimp only
      rw [List.map_map]
      exact List.map_congr_left (fun n _ => resizeNote_id _ _ _ n)
    · dsimp only
      rw [List.length_map]
  · exact ⟨rfl, rfl⟩

/-! ## C4 — pitch clamping on commit -/

/-- C4: evaluation of the code at the failing input.  A draw-mode
pointer-down at `y = 2560` (the bottom edge of the grid with the
vertical scroll at its maximum, a legal pointer position) commits a
note with pitch `-1`, outside `[0, 127]`: `handleMouseDown` computes
`TOTAL_NOTES - 1 - Math.floor(y / NOTE_HEIGHT)` without clamping. -/
theorem C4_unclamped_pitch_committed :
    ∃ n ∈ (handleMouseDown EditMode.draw "n1" false 0 2560 idleState).notes,
      n.pitch = -1 ∧ ¬ (0 ≤ n.pitch) := by
  have hnotes : (handleMouseDown EditMode.draw "n1" false 0 2560 idleState).notes
      = [{ id := "n1", start := snapToGrid 0, duration := PIXELS_PER_BEAT / 8,
           pitch := TOTAL_NOTES - 1 - ⌊(2560 : ℚ) / NOTE_HEIGHT⌋, velocity := 100,
           lyric := some "라" }] := rfl
  have hfloor : ⌊(2560 : ℚ) / NOTE_HEIGHT⌋ = 128 := by
    rw [show (2560 : ℚ) / NOTE_HEIGHT = ((128 : ℤ) : ℚ) by norm_num [NOTE_HEIGHT]]
    exact Int.floor_intCast 128
  have hpitch : (TOTAL_NOTES - 1 - ⌊(2560 : ℚ) / NOTE_HEIGHT⌋ : ℤ) = -1 := by
    rw [hfloor]
    norm_num [TOTAL_NOTES]
  rw [hnotes]
  exact ⟨_, List.mem_singleton_self _, hpitch, by rw [hpitch]; norm_num⟩

/-! ## C6 — wheel-scroll clamping -/

/-- C6 counterexample: the claim quantifies over every starting scroll
state, but a wheel event whose vertical delta is `0` leaves
`verticalScroll` untouched, so an out-of-range starting value `-1`
survives: the resulting `verticalScroll` is `-1`, not in
`[0, totalGridHeight - height]`. -/
theorem C6_counterexample :
    (handleScroll 4 880 520 0 0 false 0 (-1)).2 = -1
    ∧ ¬ (0 ≤ (handleScroll 4 880 520 0 0 false 0 (-1)).2) := by
  decide

/-- C6 (amended): for every wheel event whose starting scroll offsets
already lie within bounds (and with the visible extents no larger than
the grid extents), the resulting `verticalScroll` lies in
`[0, totalGridHeight - height]` and the resulting `horizontalScroll`
lies in `[0, totalGridWidth - width]`; a vertical delta that would push
`verticalScroll` past `totalGridHeight - height` yields exactly that
bound, and one that would push it below zero yields exactly `0`. -/
theorem C6_scroll_clamped (numerator w h deltaX deltaY hs vs : ℚ) (shiftKey : Bool)
    (hh : h ≤ totalGridHeight) (hw : w ≤ totalGridWidth numerator)
    (hvs0 : 0 ≤ vs) (hvs1 : vs ≤ totalGridHeight - h)
    (hhs0 : 0 ≤ hs) (hhs1 : hs ≤ totalGridWidth numerator - w) :
    (0 ≤ (handleScroll numerator w h deltaX deltaY shiftKey hs vs).2
      ∧ (handleScroll numerator w h deltaX deltaY shiftKey hs vs).2 ≤ totalGridHeight - h)
    ∧ (0 ≤ (handleScroll numerator w h deltaX deltaY shiftKey hs vs).1
      ∧ (handleScroll numerator w h deltaX deltaY shiftKey hs vs).1 ≤ totalGridWidth numerator - w)
    ∧ (totalGridHeight - h < vs + deltaY →
        (handleScroll numerator w h deltaX deltaY shiftKey hs vs).2 = totalGridHeight - h)
    ∧ (vs + deltaY < 0 →
        (handleScroll numerator w h deltaX deltaY shiftKey hs vs).2 = 0) := by
  have hB : (0 : ℚ) ≤ totalGridHeight - h := by linarith
  have hBW : (0 : ℚ) ≤ totalGridWidth numerator - w := by linarith
  unfold handleScroll
  dsimp only
  refine ⟨?_, ?_, ?_, ?_⟩
  · split_ifs with hdy
    · exact ⟨le_max_left _ _, max_le hB (min_le_left _ _)⟩
    · exact ⟨hvs0, hvs1⟩
  · split_ifs with hdx hin
    · exact ⟨le_max_left _ _, max_le hBW (min_le_left _ _)⟩
    · exact ⟨le_max_left _ _, max_le hBW (min_le_left _ _)⟩
    · exact ⟨hhs0, hhs1⟩
  · intro hover
    have hdy : deltaY ≠ 0 := by
      intro h0
      rw [h0, add_zero] at hover
      linarith
    rw [if_pos hdy, min_eq_left (le_of_lt hover), max_eq_right hB]
  · intro hunder
    have hdy : deltaY ≠ 0 := by
      intro h0
      rw [h0, add_zero] at hunder
      linarith
    rw [if_pos hdy, min_eq_right (le_trans (le_of_lt hunder) hB),
        max_eq_left (le_of_lt hunder)]

/-- Witness for C6 at a concrete in-bounds state: default 4/4 signature,
880×520 viewport, scroll `(0, 2000)`, vertical delta `+100` overshoots
`totalGridHeight - height = 2040` and clamps to exactly `2040`. -/
theorem C6_scroll_clamped_witness :
    (0 ≤ (handleScroll 4 880 520 0 100 false 0 2000).2
      ∧ (handleScroll 4 880 520 0 100 false 0 2000).2 ≤ totalGridHeight - 520)
    ∧ (0 ≤ (handleScroll 4 880 520 0 100 false 0 2000).1
      ∧ (handleScroll 4 880 520 0 100 false 0 2000).1 ≤ totalGridWidth 4 - 880)
    ∧ (totalGridHeight - 520 < (2000 : ℚ) + 100 →
        (handleScroll 4 880 520 0 100 false 0 2000).2 = totalGridHeight - 520)
    ∧ ((2000 : ℚ) + 100 < 0 →
        (handleScroll 4 880 520 0 100 false 0 2000).2 = 0) :=
  C6_scroll_clamped 4 880 520 0 100 0 2000 false
    (by norm_num [totalGridHeight, TOTAL_NOTES, NOTE_HEIGHT])
    (by norm_num [totalGridWidth, pixelsPerMeasure, totalMeasures, PIXELS_PER_BEAT])
    (by norm_num)
    (by norm_num [totalGridHeight, TOTAL_NOTES, NOTE_HEIGHT])
    (by norm_num)
    (by norm_num [totalGridWidth, pixelsPerMeasure, totalMeasures, PIXELS_PER_BEAT])

/-! ## C1 — findNoteAtPosition / findAt -/

lemma find?_first_match {α : Type} (p : α → Bool) :
    ∀ (l : List α) (a : α), l.find? p = some a →
      ∃ l₁ l₂, l = l₁ ++ a :: l₂ ∧ p a = true ∧ ∀ b ∈ l₁, p b = false := by
  intro l
  induction l with
  | nil => intro a h; simp [List.find?] at h
  | cons x xs ih =>
      intro a h
      cases hp : p x with
      | true =>
          rw [List.find?_cons, hp] at h
          obtain rfl : x = a := by injection h
          exact ⟨[], xs, rfl, hp, by intro b hb; simp at hb⟩
      | false =>
          rw [List.find?_cons, hp] at h
          obtain ⟨l₁, l₂, hl, hpa, hl₁⟩ := ih a h
          refine ⟨x :: l₁, l₂, by rw [hl]; rfl, hpa, ?_⟩
          intro b hb
          rcases List.mem_cons.mp hb with rfl | hb
          · exact hp
          · exact hl₁ b hb

/-- Concrete note used in counterexamples and witnesses. -/
def noteA : Note :=
  { id := "a", start := 0, duration := 40, pitch := 60, velocity := 100, lyric := none }

/-- A second note with the same rectangle as `noteA`. -/
def noteB : Note :=
  { id := "b", start := 0, duration := 40, pitch := 60, velocity := 100, lyric := none }

/-- C1 counterexample: with two overlapping notes, `findNoteAtPosition`
returns the FIRST-inserted matching note (`Array.prototype.find`), not
the topmost last-inserted one.  At `(5, 1345)` both `noteA` (inserted
first) and `noteB` (inserted last) contain the point — `noteB`'s
spec rectangle contains it too — yet the result is `noteA ≠ noteB`.
Moreover at `(40, 1345)`, on the note's right edge, no note's half-open
spec rectangle contains the point yet the result is not `none`: the
code's hit test is closed on both ends. -/
theorem C1_counterexample :
    (findNoteAtPosition [noteA, noteB] 5 1345 = some noteA
      ∧ specNoteRect noteB 5 1345
      ∧ noteA ≠ noteB)
    ∧ (findNoteAtPosition [noteA] 40 1345 = some noteA
      ∧ ¬ specNoteRect noteA 40 1345) := by
  have hA : inNoteRect noteA 5 1345 = true := by
    rw [inNoteRect, decide_eq_true_eq]
    refine ⟨?_, ?_, ?_, ?_⟩ <;> norm_num [noteA, pixelY, TOTAL_NOTES, NOTE_HEIGHT]
  have hA40 : inNoteRect noteA 40 1345 = true := by
    rw [inNoteRect, decide_eq_true_eq]
    refine ⟨?_, ?_, ?_, ?_⟩ <;> norm_num [noteA, pixelY, TOTAL_NOTES, NOTE_HEIGHT]
  refine ⟨⟨?_, ?_, ?_⟩, ?_, ?_⟩
  · exact List.find?_cons_of_pos _ hA
  · refine ⟨?_, ?_, ?_, ?_⟩ <;> norm_num [noteB, pixelY, TOTAL_NOTES, NOTE_HEIGHT]
  · intro h
    have hid := congrArg Note.id h
    simp [noteA, noteB] at hid
  · exact List.find?_cons_of_pos _ hA40
  · intro h
    obtain ⟨h1, h2, h3, h4⟩ := h
    norm_num [noteA] at h2

/-- C1 (amended): `findNoteAtPosition` returns the first-inserted
(bottom-most) note whose closed rectangle
`[start, start+duration] × [pixelY(pitch), pixelY(pitch)+NOTE_HEIGHT]`
contains `(x, y)` — every earlier note's rectangle misses the point —
and returns `none` exactly when no note's rectangle contains the
point; after inserting a valid note, `findAt` at a point inside the new
note's rectangle returns that note provided no previously inserted
note's rectangle contains the point. -/
theorem C1_findAt (notes : List Note) (x y : ℚ) :
    (∀ n : Note, findNoteAtPosition notes x y = some n →
      ∃ l₁ l₂, notes = l₁ ++ n :: l₂ ∧ inNoteRect n x y = true
        ∧ ∀ m ∈ l₁, inNoteRect m x y = false)
    ∧ (findNoteAtPosition notes x y = none ↔ ∀ n ∈ notes, inNoteRect n x y = false)
    ∧ (∀ n : Note, inNoteRect n x y = true →
        (∀ m ∈ notes, inNoteRect m x y = false) →
        findNoteAtPosition (notes ++ [n]) x y = some n) := by
  refine ⟨?_, ?_, ?_⟩
  · intro n h
    exact find?_first_match _ notes n h
  · rw [findNoteAtPosition, List.find?_eq_none]
    constructor
    · intro h n hn
      simpa using h n hn
    · intro h n hn
      simp [h n hn]
  · intro n hn hnone
    rw [findNoteAtPosition, List.find?_append]
    have h1 : notes.find? (fun note => inNoteRect note x y) = none := by
      rw [List.find?_eq_none]
      intro m hm
      simp [hnone m hm]
    rw [h1]
    simp [List.find?, hn]

/-- Witness for C1: inserting `noteA` into the empty collection and
looking up `(5, 1345)` (inside its rectangle) returns `noteA`. -/
theorem C1_findAt_witness :
    findNoteAtPosition ([] ++ [noteA]) 5 1345 = some noteA := by
  have h := (C1_findAt [] 5 1345).2.2 noteA
  apply h
  · show inNoteRect noteA 5 1345 = true
    rw [inNoteRect, decide_eq_true_eq]
    refine ⟨by norm_num [noteA], by norm_num [noteA], ?_, ?_⟩
    · norm_num [noteA, pixelY, TOTAL_NOTES, NOTE_HEIGHT]
    · norm_num [noteA, pixelY, TOTAL_NOTES, NOTE_HEIGHT]
  · intro m hm
    simp at hm

/-! ## C5 — remove prunes collection and selection -/

lemma noteA_hit : inNoteRect noteA 5 1345 = true := by
  rw [inNoteRect, decide_eq_true_eq]
  refine ⟨?_, ?_, ?_, ?_⟩ <;> norm_num [noteA, pixelY, TOTAL_NOTES, NOTE_HEIGHT]

/-- C5: an erase-mode pointer-down on a note (the note `findNoteAtPosition`
yields at the click point) deletes every note with that id from the
collection and erases the id from the selection; afterwards
`findNoteAtPosition` at any point never returns a note with that id,
and — provided the selection only held ids of collection members before —
the selection still only holds ids of collection members. -/
theorem C5_remove (s : GridState) (x y x2 y2 : ℚ) (newId : String) (cn : Note)
    (hclick : findNoteAtPosition s.notes x y = some cn)
    (hsel : ∀ a ∈ s.selectedNotes, a ∈ s.notes.map Note.id) :
    (∀ n ∈ (handleMouseDown EditMode.erase newId false x y s).notes, n.id ≠ cn.id)
    ∧ cn.id ∉ (handleMouseDown EditMode.erase newId false x y s).selectedNotes
    ∧ (∀ n : Note,
        findNoteAtPosition (handleMouseDown EditMode.erase newId false x y s).notes x2 y2
          = some n → n.id ≠ cn.id)
    ∧ (∀ a ∈ (handleMouseDown EditMode.erase newId false x y s).selectedNotes,
        a ∈ (handleMouseDown EditMode.erase newId false x y s).notes.map Note.id) := by
  have hred : handleMouseDown EditMode.erase newId false x y s =
      { s with
        dragStartX := x
        dragStartY := y
        lastMouseX := x
        lastMouseY := y
        notes := s.notes.filter (fun note => decide (note.id ≠ cn.id))
        selectedNotes := s.selectedNotes.erase cn.id } := by
    unfold handleMouseDown
    dsimp only
    rw [hclick]
  have hmem : ∀ n ∈ (handleMouseDown EditMode.erase newId false x y s).notes, n.id ≠ cn.id := by
    intro n hn
    rw [hred] at hn
    dsimp only at hn
    simpa using (List.mem_filter.mp hn).2
  refine ⟨hmem, ?_, ?_, ?_⟩
  · rw [hred]
    dsimp only
    exact Finset.not_mem_erase _ _
  · intro n hfind
    exact hmem n (List.mem_of_find?_eq_some hfind)
  · intro a ha
    rw [hred] at ha ⊢
    dsimp only at ha ⊢
    obtain ⟨hne, hmemsel⟩ := Finset.mem_erase.mp ha
    obtain ⟨n, hn, rfl⟩ := List.mem_map.mp (hsel a hmemsel)
    exact List.mem_map.mpr ⟨n, List.mem_filter.mpr ⟨hn, by simpa using hne⟩, rfl⟩

/-- A one-note state with the note selected, used as the C5 witness input. -/
def eraseState : GridState :=
  { idleState with notes := [noteA], selectedNotes := {"a"} }

/-- Witness for C5: erasing `noteA` (clicked at `(5, 1345)`) from a
one-note collection with `"a"` selected. -/
theorem C5_remove_witness :
    (∀ n ∈ (handleMouseDown EditMode.erase "x" false 5 1345 eraseState).notes, n.id ≠ noteA.id)
    ∧ noteA.id ∉ (handleMouseDown EditMode.erase "x" false 5 1345 eraseState).selectedNotes
    ∧ (∀ n : Note,
        findNoteAtPosition (handleMouseDown EditMode.erase "x" false 5 1345 eraseState).notes 5 1345
          = some n → n.id ≠ noteA.id)
    ∧ (∀ a ∈ (handleMouseDown EditMode.erase "x" false 5 1345 eraseState).selectedNotes,
        a ∈ (handleMouseDown EditMode.erase "x" false 5 1345 eraseState).notes.map Note.id) :=
  C5_remove eraseState 5 1345 5 1345 "x" noteA
    (List.find?_cons_of_pos _ noteA_hit)
    (by intro a ha; simp [eraseState, idleState] at ha; simp [eraseState, idleState, ha, noteA])

/-! ## C9 — lyric-edit exit -/

/-- C9: exiting lyric editing via Enter (identical to committing via
loss of focus, `saveLyric`) replaces precisely the edited note's
`lyric` field with `lyricInputValue`, keeping every note's `id`,
`start`, `duration`, `pitch` and `velocity` and every other note's
`lyric`, and returns the session to Idle; exiting via Escape returns
to Idle with the note collection untouched. -/
theorem C9_lyric_exit (s : GridState) (editedId : String)
    (h : s.editedNoteId = some editedId) :
    handleLyricInputKeydown "Enter" s = saveLyric s
    ∧ List.Forall₂ (fun old new =>
        new.id = old.id ∧ new.start = old.start ∧ new.duration = old.duration
        ∧ new.pitch = old.pitch ∧ new.velocity = old.velocity
        ∧ new.lyric = (if old.id = editedId then some s.lyricInputValue else old.lyric))
        s.notes (saveLyric s).notes
    ∧ (saveLyric s).isEditingLyric = false
    ∧ (saveLyric s).editedNoteId = none
    ∧ (handleLyricInputKeydown "Escape" s).notes = s.notes
    ∧ (handleLyricInputKeydown "Escape" s).isEditingLyric = false
    ∧ (handleLyricInputKeydown "Escape" s).editedNoteId = none := by
  have hsave : saveLyric s =
      { s with
        notes := s.notes.map (fun note =>
          if note.id = editedId then { note with lyric := some s.lyricInputValue } else note)
        isEditingLyric := false
        editedNoteId := none } := by
    unfold saveLyric
    rw [h]
  have hesc : handleLyricInputKeydown "Escape" s =
      { s with isEditingLyric := false, editedNoteId := none } := by
    unfold handleLyricInputKeydown
    rw [if_neg (by decide), if_pos rfl]
  refine ⟨?_, ?_, ?_, ?_, ?_, ?_, ?_⟩
  · unfold handleLyricInputKeydown
    rw [if_pos rfl]
  · rw [hsave]
    dsimp only
    rw [List.forall₂_map_right_iff, List.forall₂_same]
    intro n hn
    by_cases hid : n.id = editedId
    · rw [if_pos hid, if_pos hid]
      exact ⟨rfl, rfl, rfl, rfl, rfl, rfl⟩
    · rw [if_neg hid, if_neg hid]
      exact ⟨rfl, rfl, rfl, rfl, rfl, rfl⟩
  · rw [hsave]
  · rw [hsave]
  · rw [hesc]
  · rw [hesc]
  · rw [hesc]

/-- A state editing the lyric of `noteA`, the C9 witness input. -/
def lyricState : GridState :=
  { idleState with
    notes := [noteA]
    isEditingLyric := true
    editedNoteId := some "a"
    lyricInputValue := "la" }

/-- Witness for C9 on `lyricState`. -/
theorem C9_lyric_exit_witness :
    handleLyricInputKeydown "Enter" lyricState = saveLyric lyricState
    ∧ List.Forall₂ (fun old new =>
        new.id = old.id ∧ new.start = old.start ∧ new.duration = old.duration
        ∧ new.pitch = old.pitch ∧ new.velocity = old.velocity
        ∧ new.lyric = (if old.id = "a" then some lyricState.lyricInputValue else old.lyric))
        lyricState.notes (saveLyric lyricState).notes
    ∧ (saveLyric lyricState).isEditingLyric = false
    ∧ (saveLyric lyricState).editedNoteId = none
    ∧ (handleLyricInputKeydown "Escape" lyricState).notes = lyricState.notes
    ∧ (handleLyricInputKeydown "Escape" lyricState).isEditingLyric = false
    ∧ (handleLyricInputKeydown "Escape" lyricState).editedNoteId = none :=
  C9_lyric_exit lyricState "a" rfl

/-! ## C3 — drag-move quantization -/

/-- C3: while dragging a selection in select mode, every pointer-move
maps each selected note's `start` to
`max 0 (start + round(deltaX / (PIXELS_PER_BEAT/4)) * (PIXELS_PER_BEAT/4))`
and its `pitch` to the clamp of `pitch - round(deltaY / NOTE_HEIGHT)`
into `[0, 127]`, and leaves unselected notes unchanged; a horizontal
delta that quantizes to zero leaves every note's nonnegative `start`
unchanged, and a delta of exactly `PIXELS_PER_BEAT / 4` increases each
selected note's `start` by exactly `PIXELS_PER_BEAT / 4`. -/
theorem C3_drag_selection (s : GridState) (x y : ℚ) (d : String)
    (hdrag : s.isDragging = true) (hid : s.draggedNoteId = some d) :
    (handleMouseMove EditMode.select x y s).notes
      = s.notes.map (moveNote s.selectedNotes (x - s.lastMouseX) (y - s.lastMouseY))
    ∧ (∀ n : Note, n.id ∉ s.selectedNotes →
        moveNote s.selectedNotes (x - s.lastMouseX) (y - s.lastMouseY) n = n)
    ∧ (∀ n : Note, n.id ∈ s.selectedNotes →
        (moveNote s.selectedNotes (x - s.lastMouseX) (y - s.lastMouseY) n).start
          = max 0 (n.start
              + (round ((x - s.lastMouseX) / (PIXELS_PER_BEAT / 4)) : ℚ)
                * (PIXELS_PER_BEAT / 4))
        ∧ (moveNote s.selectedNotes (x - s.lastMouseX) (y - s.lastMouseY) n).pitch
          = max 0 (min 127 (n.pitch - round ((y - s.lastMouseY) / NOTE_HEIGHT))))
    ∧ (round ((x - s.lastMouseX) / (PIXELS_PER_BEAT / 4)) = 0 →
        ∀ n : Note, 0 ≤ n.start →
          (moveNote s.selectedNotes (x - s.lastMouseX) (y - s.lastMouseY) n).start = n.start)
    ∧ (x - s.lastMouseX = PIXELS_PER_BEAT / 4 →
        ∀ n : Note, n.id ∈ s.selectedNotes → 0 ≤ n.start →
          (moveNote s.selectedNotes (x - s.lastMouseX) (y - s.lastMouseY) n).start
            = n.start + PIXELS_PER_BEAT / 4) := by
  refine ⟨?_, ?_, ?_, ?_, ?_⟩
  · unfold handleMouseMove
    dsimp only
    rw [if_pos ⟨hdrag, by rw [hid]; rfl, rfl⟩]
  · intro n hn
    unfold moveNote
    rw [if_neg hn]
  · intro n hn
    unfold moveNote snappedDelta
    rw [if_pos hn]
    exact ⟨rfl, rfl⟩
  · intro h0 n hstart
    unfold moveNote snappedDelta
    split_ifs with hmem
    · dsimp only
      rw [h0]
      push_cast
      rw [zero_mul, add_zero, max_eq_right hstart]
    · rfl
  · intro h20 n hmem hstart
    unfold moveNote snappedDelta
    rw [if_pos hmem]
    dsimp only
    rw [h20, div_self (by norm_num [PIXELS_PER_BEAT]), round_one]
    push_cast
    rw [one_mul, max_eq_right (by norm_num [PIXELS_PER_BEAT]; linarith)]

/-- A one-note dragging state, the C3 witness input. -/
def dragState : GridState :=
  { idleState with
    notes := [noteA]
    isDragging := true
    draggedNoteId := some "a"
    selectedNotes := {"a"} }

/-- Witness for C3: moving the pointer by `deltaX = 3` (quantizes to 0)
and `deltaY = 0` leaves the selected `noteA` unchanged. -/
theorem C3_drag_selection_witness :
    (handleMouseMove EditMode.select 3 0 dragState).notes = [noteA] := by
  have h := C3_drag_selection dragState 3 0 "a" rfl rfl
  rw [h.1]
  have hmem : noteA.id ∈ dragState.selectedNotes := by
    simp [dragState, idleState, noteA]
  have h0 : round (((3 : ℚ) - dragState.lastMouseX) / (PIXELS_PER_BEAT / 4)) = 0 := by
    rw [round_eq]
    have hv : ((3 : ℚ) - dragState.lastMouseX) / (PIXELS_PER_BEAT / 4) + 1/2 = 13/20 := by
      norm_num [dragState, idleState, PIXELS_PER_BEAT]
    rw [hv]
    apply Int.floor_eq_zero_iff.mpr
    constructor <;> norm_num
  have hy : round (((0 : ℚ) - dragState.lastMouseY) / NOTE_HEIGHT) = 0 := by
    rw [round_eq]
    have hv : ((0 : ℚ) - dragState.lastMouseY) / NOTE_HEIGHT + 1/2 = 1/2 := by
      norm_num [dragState, idleState, NOTE_HEIGHT]
    rw [hv]
    apply Int.floor_eq_zero_iff.mpr
    constructor <;> norm_num
  show [moveNote dragState.selectedNotes (3 - dragState.lastMouseX)
      (0 - dragState.lastMouseY) noteA] = [noteA]
  congr 1
  unfold moveNote snappedDelta
  rw [if_pos hmem, h0, hy]
  norm_num [noteA]

/-! ## C2 — creation gesture commits or discards the note -/

/-- The note `handleMouseDown` seeds in draw mode at `(x0, y0)`. -/
def createdSeed (newId : String) (x0 y0 : ℚ) : Note :=
  { id := newId
    start := snapToGrid x0
    duration := PIXELS_PER_BEAT / 8
    pitch := TOTAL_NOTES - 1 - ⌊y0 / NOTE_HEIGHT⌋
    velocity := 100
    lyric := some "라" }

lemma resize_map_fresh (s : GridState) (x dX : ℚ) (base : List Note) (nn : Note)
    (h4 : s.resizedNoteId = some nn.id) (hfresh : ∀ n ∈ base, n.id ≠ nn.id) :
    (base ++ [nn]).map (resizeNote s x dX) = base ++ [resizeNote s x dX nn] := by
  rw [List.map_append]
  have hbase : base.map (resizeNote s x dX) = base.map id :=
    List.map_congr_left (fun n hn => resizeNote_of_ne s x dX n nn.id h4 (hfresh n hn))
  rw [hbase, List.map_id]
  rfl

lemma mouseMove_draw_creating (px py : ℚ) (st : GridState) (base : List Note) (nn : Note)
    (h1 : st.notes = base ++ [nn])
    (h3 : st.isResizing = true)
    (h4 : st.resizedNoteId = some nn.id)
    (hfresh : ∀ n ∈ base, n.id ≠ nn.id) :
    ∃ nn' : Note, nn'.id = nn.id
      ∧ (handleMouseMove EditMode.draw px py st).notes = base ++ [nn']
      ∧ (handleMouseMove EditMode.draw px py st).isCreatingNote = st.isCreatingNote
      ∧ (handleMouseMove EditMode.draw px py st).isResizing = true
      ∧ (handleMouseMove EditMode.draw px py st).resizedNoteId = some nn.id := by
  unfold handleMouseMove
  dsimp only
  rw [if_neg (fun hc => EditMode.noConfusion hc.2.2)]
  rw [if_pos ⟨h3, by rw [h4]; rfl⟩]
  refine ⟨resizeNote { st with lastMouseX := px, lastMouseY := py } px (px - st.lastMouseX) nn,
    resizeNote_id _ _ _ nn, ?_, rfl, h3, h4⟩
  dsimp only
  rw [h1]
  exact resize_map_fresh _ px (px - st.lastMouseX) base nn h4 hfresh

lemma creation_foldl_inv (moves : List (ℚ × ℚ)) :
    ∀ (st : GridState) (base : List Note) (nn : Note),
      st.notes = base ++ [nn] →
      st.isCreatingNote = true →
      st.isResizing = true →
      st.resizedNoteId = some nn.id →
      (∀ n ∈ base, n.id ≠ nn.id) →
      ∃ nn' : Note, nn'.id = nn.id
        ∧ (moves.foldl (fun acc p => handleMouseMove EditMode.draw p.1 p.2 acc) st).notes
            = base ++ [nn']
        ∧ (moves.foldl (fun acc p => handleMouseMove EditMode.draw p.1 p.2 acc) st).isCreatingNote
            = true
        ∧ (moves.foldl (fun acc p => handleMouseMove EditMode.draw p.1 p.2 acc) st).resizedNoteId
            = some nn.id := by
  induction moves with
  | nil =>
      intro st base nn h1 h2 h3 h4 hfresh
      exact ⟨nn, rfl, h1, h2, h4⟩
  | cons p rest ih =>
      intro st base nn h1 h2 h3 h4 hfresh
      obtain ⟨nn1, hid1, hnotes1, hc1, hr1, hrid1⟩ :=
        mouseMove_draw_creating p.1 p.2 st base nn h1 h3 h4 hfresh
      have hrid1' : (handleMouseMove EditMode.draw p.1 p.2 st).resizedNoteId = some nn1.id := by
        rw [hrid1, hid1]
      have hfresh1 : ∀ n ∈ base, n.id ≠ nn1.id := by
        intro n hn
        rw [hid1]
        exact hfresh n hn
      obtain ⟨nn2, hid2, hnotes2, hc2, hrid2⟩ :=
        ih (handleMouseMove EditMode.draw p.1 p.2 st) base nn1 hnotes1
          (by rw [hc1, h2]) hr1 hrid1' hfresh1
      rw [List.foldl_cons]
      exact ⟨nn2, by rw [hid2, hid1], hnotes2, hc2, by rw [hrid2, hid1]⟩

/-- The state right after a draw-mode pointer-down on empty space. -/
def downState (s : GridState) (newId : String) (x0 y0 : ℚ) : GridState :=
  { s with
    dragStartX := x0
    dragStartY := y0
    lastMouseX := x0
    lastMouseY := y0
    notes := s.notes ++ [createdSeed newId x0 y0]
    creationStartTime := snapToGrid x0
    creationPitch := TOTAL_NOTES - 1 - ⌊y0 / NOTE_HEIGHT⌋
    selectedNotes := {newId}
    resizedNoteId := some newId
    isCreatingNote := true
    isResizing := true }

/-- C2: a full draw-mode creation gesture (pointer-down on empty space,
any sequence of pointer moves, pointer-up) produces some note `nn`
carrying the fresh id; if its duration at pointer-up is below
`PIXELS_PER_BEAT / 4` the note is removed — the collection and its
count return to their pre-gesture values — and otherwise the note stays
committed; in both cases all session flags are cleared (Idle). -/
theorem C2_creation_gesture (s : GridState) (newId : String) (x0 y0 : ℚ)
    (moves : List (ℚ × ℚ))
    (hnone : findNoteAtPosition s.notes x0 y0 = none)
    (hfresh : ∀ n ∈ s.notes, n.id ≠ newId) :
    ∃ nn : Note, nn.id = newId
      ∧ (creationGesture s newId x0 y0 moves).isCreatingNote = false
      ∧ (creationGesture s newId x0 y0 moves).isDragging = false
      ∧ (creationGesture s newId x0 y0 moves).isResizing = false
      ∧ (creationGesture s newId x0 y0 moves).draggedNoteId = none
      ∧ (creationGesture s newId x0 y0 moves).resizedNoteId = none
      ∧ (nn.duration < PIXELS_PER_BEAT / 4 →
          (creationGesture s newId x0 y0 moves).notes = s.notes
          ∧ (creationGesture s newId x0 y0 moves).notes.length = s.notes.length)
      ∧ (¬ nn.duration < PIXELS_PER_BEAT / 4 →
          (creationGesture s newId x0 y0 moves).notes = s.notes ++ [nn]) := by
  have hdown : handleMouseDown EditMode.draw newId false x0 y0 s = downState s newId x0 y0 := by
    unfold handleMouseDown downState createdSeed
    dsimp only
    rw [hnone]
  unfold creationGesture
  rw [hdown]
  obtain ⟨nn, hid, hnotes, hcreating, hrid⟩ :=
    creation_foldl_inv moves (downState s newId x0 y0) s.notes (createdSeed newId x0 y0)
      rfl rfl rfl rfl (fun n hn => hfresh n hn)
  have hid' : nn.id = newId := hid
  set F := moves.foldl (fun acc p => handleMouseMove EditMode.draw p.1 p.2 acc)
      (downState s newId x0 y0) with hF
  have hfind : F.notes.find? (fun note => decide (note.id = newId)) = some nn := by
    rw [hnotes]
    exact find?_id_append s.notes nn newId hid' hfresh
  have hupnotes : (handleMouseUp F).notes =
      if nn.duration < PIXELS_PER_BEAT / 4 then
        F.notes.filter (fun note => decide (note.id ≠ newId))
      else F.notes := by
    unfold handleMouseUp
    dsimp only
    rw [hcreating, if_pos rfl, hrid]
    dsimp only
    rw [show (createdSeed newId x0 y0).id = newId from rfl, hfind]
    dsimp only
    split_ifs with h <;> rfl
  refine ⟨nn, hid', rfl, rfl, rfl, rfl, rfl, ?_, ?_⟩
  · intro hdur
    have h1 : (handleMouseUp F).notes = s.notes := by
      rw [hupnotes, if_pos hdur, hnotes]
      exact filter_id_append s.notes nn newId hid' hfresh
    exact ⟨h1, by rw [h1]⟩
  · intro hdur
    rw [hupnotes, if_neg hdur, hnotes]

/-- Witness for C2: a gesture with no pointer moves on the empty
collection: the seeded duration `PIXELS_PER_BEAT / 8 = 10` is below the
threshold `20`, so the note is discarded and the state returns to
Idle with zero notes. -/
theorem C2_creation_gesture_witness :
    ∃ nn : Note, nn.id = "n1"
      ∧ (creationGesture idleState "n1" 0 0 []).isCreatingNote = false
      ∧ (creationGesture idleState "n1" 0 0 []).isDragging = false
      ∧ (creationGesture idleState "n1" 0 0 []).isResizing = false
      ∧ (creationGesture idleState "n1" 0 0 []).draggedNoteId = none
      ∧ (creationGesture idleState "n1" 0 0 []).resizedNoteId = none
      ∧ (nn.duration < PIXELS_PER_BEAT / 4 →
          (creationGesture idleState "n1" 0 0 []).notes = idleState.notes
          ∧ (creationGesture idleState "n1" 0 0 []).notes.length = idleState.notes.length)
      ∧ (¬ nn.duration < PIXELS_PER_BEAT / 4 →
          (creationGesture idleState "n1" 0 0 []).notes = idleState.notes ++ [nn]) :=
  C2_creation_gesture idleState "n1" 0 0 [] rfl (by intro n hn; simp [idleState] at hn)
